import Mathlib

/-!
Verification of the CO2-prediction pipeline (app.py) and the ERA5 download
utility (oco2.py).

The embedding models:
* the axis-wise nearest-grid-index lookup (`np.abs(values - q).argmin()`),
* the per-variable scalar extraction with the fixed name-translation table,
* the filename-keyed download cache of `download_era5`,
* the feature assembly and the pre-prediction column-presence check,
* the top-level try/except of the prediction pipeline,
* the startup credential bootstrap and model loading,
* the download/zip/log/cleanup flow of the second entry point.

Python dicts are modelled as association lists with insert-or-overwrite
semantics (`pyDictInsert`); machine floats are modelled as rationals.
-/

/-- First index of the minimum of a list, mirroring `np.argmin`
(ties broken toward the earliest index). Zero on the empty list,
where `np.argmin` is undefined (it raises). -/
def argmin : List Rat → Nat
  | [] => 0
  | [_] => 0
  | x :: y :: ys =>
    if (y :: ys).getD (argmin (y :: ys)) 0 < x then argmin (y :: ys) + 1 else 0

theorem argmin_cons2 (x y : Rat) (ys : List Rat) :
    argmin (x :: y :: ys) =
      if (y :: ys).getD (argmin (y :: ys)) 0 < x then argmin (y :: ys) + 1 else 0 := rfl

theorem argmin_lt_length : ∀ (l : List Rat), l ≠ [] → argmin l < l.length
  | [], h => absurd rfl h
  | [_], _ => Nat.zero_lt_one
  | x :: y :: ys, _ => by
    have ih := argmin_lt_length (y :: ys) (by simp)
    rw [argmin_cons2]
    by_cases hc : (y :: ys).getD (argmin (y :: ys)) 0 < x
    · rw [if_pos hc]
      simpa [Nat.succ_lt_succ_iff] using ih
    · rw [if_neg hc]
      simp

theorem argmin_le : ∀ (l : List Rat) (j : Nat), j < l.length →
    l.getD (argmin l) 0 ≤ l.getD j 0
  | [], j, h => absurd h (by simp)
  | [a], j, h => by
    have hj : j = 0 := by simpa using h
    subst hj
    exact le_refl _
  | x :: y :: ys, j, h => by
    rw [argmin_cons2]
    by_cases hc : (y :: ys).getD (argmin (y :: ys)) 0 < x
    · rw [if_pos hc]
      match j with
      | 0 =>
        rw [List.getD_cons_succ, List.getD_cons_zero]
        exact le_of_lt hc
      | Nat.succ k =>
        rw [List.getD_cons_succ, List.getD_cons_succ]
        exact argmin_le (y :: ys) k (by simpa using h)
    · rw [if_neg hc]
      match j with
      | 0 => exact le_refl _
      | Nat.succ k =>
        rw [List.getD_cons_succ, List.getD_cons_zero]
        have h1 : x ≤ (y :: ys).getD (argmin (y :: ys)) 0 := not_lt.mp hc
        exact le_trans h1 (argmin_le (y :: ys) k (by simpa using h))

theorem argmin_first : ∀ (l : List Rat) (j : Nat), j < argmin l →
    l.getD (argmin l) 0 < l.getD j 0
  | [], j, h => absurd h (Nat.not_lt_zero j)
  | [_], j, h => absurd h (Nat.not_lt_zero j)
  | x :: y :: ys, j, h => by
    rw [argmin_cons2] at h ⊢
    by_cases hc : (y :: ys).getD (argmin (y :: ys)) 0 < x
    · rw [if_pos hc] at h ⊢
      match j with
      | 0 =>
        rw [List.getD_cons_succ, List.getD_cons_zero]
        exact hc
      | Nat.succ k =>
        rw [List.getD_cons_succ, List.getD_cons_succ]
        exact argmin_first (y :: ys) k (by omega)
    · rw [if_neg hc] at h
      exact absurd h (Nat.not_lt_zero j)

/-- Absolute-difference list, mirroring `np.abs(values - q)`. -/
def absDiffs (G : List Rat) (q : Rat) : List Rat := G.map (fun g => |g - q|)

/-- One axis of the grid locator: `np.abs(values - q).argmin()`
(app.py lines 105-106, applied once to the latitude array and once
to the longitude array). -/
def nearestIndex (G : List Rat) (q : Rat) : Nat := argmin (absDiffs G q)

theorem getD_absDiffs : ∀ (G : List Rat) (q : Rat) (j : Nat), j < G.length →
    (absDiffs G q).getD j 0 = |G.getD j 0 - q|
  | [], _, j, h => absurd h (by simp)
  | g :: gs, q, 0, _ => by simp [absDiffs]
  | g :: gs, q, j + 1, h => by
    simp only [absDiffs, List.map_cons, List.getD_cons_succ]
    exact getD_absDiffs gs q j (by simpa using h)

theorem getD_mem : ∀ (l : List Rat) (j : Nat), j < l.length → l.getD j 0 ∈ l
  | [], j, h => absurd h (by simp)
  | x :: xs, 0, _ => by simp
  | x :: xs, j + 1, h => by
    simp only [List.getD_cons_succ]
    exact List.mem_cons_of_mem x (getD_mem xs j (by simpa using h))

theorem pairwise_getD_lt : ∀ (G : List Rat), List.Pairwise (· < ·) G →
    ∀ i j, i < j → j < G.length → G.getD i 0 < G.getD j 0 := by
  intro G
  induction G with
  | nil => intro _ i j _ hj; simp at hj
  | cons a as ih =>
    intro hp i j hij hj
    rcases List.pairwise_cons.mp hp with ⟨h1, h2⟩
    match i, j with
    | 0, k + 1 =>
      simp only [List.getD_cons_zero, List.getD_cons_succ]
      exact h1 _ (getD_mem as k (by simpa using hj))
    | m + 1, k + 1 =>
      simp only [List.getD_cons_succ]
      exact ih h2 m k (by omega) (by simpa using hj)

theorem argmin_eq_of_strict (l : List Rat) (i : Nat) (hi : i < l.length)
    (hne : l ≠ []) (h : ∀ j, j < l.length → j ≠ i → l.getD i 0 < l.getD j 0) :
    argmin l = i := by
  by_contra hne2
  have h1 := argmin_le l i hi
  have h2 := h (argmin l) (argmin_lt_length l hne) hne2
  exact absurd h1 (not_le.mpr h2)

/-- C2: for every non-empty grid array `G` and query `q`, the grid locator
returns an in-range index minimizing `|G[i] - q|` over all indices, strictly
beating every earlier index (so exact ties resolve to the earliest index);
moreover on a strictly ascending grid an out-of-envelope query below the
first value returns index 0 and one above the last value returns the last
index. -/
theorem nearestIndex_spec (G : List Rat) (q : Rat) (hne : G ≠ []) :
    nearestIndex G q < G.length
    ∧ (∀ j, j < G.length → |G.getD (nearestIndex G q) 0 - q| ≤ |G.getD j 0 - q|)
    ∧ (∀ j, j < nearestIndex G q → |G.getD (nearestIndex G q) 0 - q| < |G.getD j 0 - q|)
    ∧ (List.Pairwise (· < ·) G → q ≤ G.getD 0 0 → nearestIndex G q = 0)
    ∧ (List.Pairwise (· < ·) G → G.getD (G.length - 1) 0 ≤ q →
        nearestIndex G q = G.length - 1) := by
  have hlen : (absDiffs G q).length = G.length := by simp [absDiffs]
  have hdne : absDiffs G q ≠ [] := by
    simp only [absDiffs, ne_eq, List.map_eq_nil_iff]
    exact hne
  have hlt : nearestIndex G q < G.length := by
    rw [← hlen]; exact argmin_lt_length _ hdne
  refine ⟨hlt, ?_, ?_, ?_, ?_⟩
  · intro j hj
    calc |G.getD (nearestIndex G q) 0 - q|
        = (absDiffs G q).getD (nearestIndex G q) 0 := (getD_absDiffs G q _ hlt).symm
      _ ≤ (absDiffs G q).getD j 0 := argmin_le (absDiffs G q) j (by rwa [hlen])
      _ = |G.getD j 0 - q| := getD_absDiffs G q j hj
  · intro j hj
    have hjlt : j < G.length := lt_trans hj hlt
    calc |G.getD (nearestIndex G q) 0 - q|
        = (absDiffs G q).getD (nearestIndex G q) 0 := (getD_absDiffs G q _ hlt).symm
      _ < (absDiffs G q).getD j 0 := argmin_first (absDiffs G q) j hj
      _ = |G.getD j 0 - q| := getD_absDiffs G q j hjlt
  · intro hp hq
    apply argmin_eq_of_strict _ 0 (by rwa [hlen, List.length_pos_iff_ne_nil]) hdne
    intro j hj hj0
    have hjG : j < G.length := by rwa [hlen] at hj
    have hlt0 : G.getD 0 0 < G.getD j 0 :=
      pairwise_getD_lt G hp 0 j (Nat.pos_of_ne_zero hj0) hjG
    rw [getD_absDiffs G q 0 (by rwa [List.length_pos_iff_ne_nil]),
        getD_absDiffs G q j hjG]
    rw [abs_of_nonneg (sub_nonneg.mpr hq),
        abs_of_nonneg (sub_nonneg.mpr (le_trans hq (le_of_lt hlt0)))]
    exact sub_lt_sub_right hlt0 q
  · intro hp hq
    have hpos : 0 < G.length := by rwa [List.length_pos_iff_ne_nil]
    apply argmin_eq_of_strict _ (G.length - 1) (by omega) hdne
    intro j hj hjne
    have hjG : j < G.length := by rwa [hlen] at hj
    have hjlt : j < G.length - 1 := by omega
    have hlt1 : G.getD j 0 < G.getD (G.length - 1) 0 :=
      pairwise_getD_lt G hp j (G.length - 1) hjlt (by omega)
    rw [getD_absDiffs G q _ (by omega), getD_absDiffs G q j hjG]
    rw [abs_sub_comm (G.getD (G.length - 1) 0) q,
        abs_sub_comm (G.getD j 0) q,
        abs_of_nonneg (sub_nonneg.mpr hq),
        abs_of_nonneg (sub_nonneg.mpr (le_trans (le_of_lt hlt1) hq))]
    exact sub_lt_sub_left hlt1 q

/-- Witness for `nearestIndex_spec`: on the grid `[2, 5, 9]` with query 4 the
returned index minimizes the distance against index 2, and on the ascending
grid `[0, 10, 20]` the out-of-envelope query 25 returns the last index. -/
theorem nearestIndex_spec_witness :
    |([2, 5, 9] : List Rat).getD (nearestIndex [2, 5, 9] 4) 0 - 4|
      ≤ |([2, 5, 9] : List Rat).getD 2 0 - 4|
    ∧ nearestIndex [0, 10, 20] 25 = 2 := by
  constructor
  · exact (nearestIndex_spec [2, 5, 9] 4 (by decide)).2.1 2 (by decide)
  · have h := (nearestIndex_spec [0, 10, 20] 25 (by decide)).2.2.2.2
      (by decide) (by decide)
    simpa using h

/-- The fixed name-translation table `VAR_MAP` of app.py (request-facing
variable name to the short internal field name). -/
def VAR_MAP : List (String × String) := [
  ("10m_u_component_of_wind", "u10"),
  ("10m_v_component_of_wind", "v10"),
  ("2m_temperature", "t2m"),
  ("surface_pressure", "sp"),
  ("high_vegetation_cover", "cvh"),
  ("low_vegetation_cover", "cvl"),
  ("leaf_area_index_high_vegetation", "lai_hv"),
  ("leaf_area_index_low_vegetation", "lai_lv")]

/-- `VAR_MAP.get(req_var, req_var)`: translate a requested name, defaulting
to the name itself. -/
def varMapGet (req : String) : String := (VAR_MAP.lookup req).getD req

/-- A fetched gridded dataset: latitude and longitude coordinate arrays and
named scalar fields indexed by (time, lat index, lon index). -/
structure NCDataset where
  latitude : List Rat
  longitude : List Rat
  vars : List (String × (Nat → Nat → Nat → Rat))

/-- Dictionary access: the value stored under key `k`, `none` when absent. -/
def dlookup {α : Type} (m : List (String × α)) (k : String) : Option α :=
  match m with
  | [] => none
  | p :: ps => if p.1 = k then some p.2 else dlookup ps k

/-- Membership test `nc_var in nc_file.variables`. -/
def hasVar (nc : NCDataset) (name : String) : Bool := (dlookup nc.vars name).isSome

/-- Read `nc_file.variables[name][t, i, j]` (0 when the field is missing;
only used under `hasVar`). -/
def readVar (nc : NCDataset) (name : String) (t i j : Nat) : Rat :=
  match dlookup nc.vars name with
  | some f => f t i j
  | none => 0

/-- Python dict assignment `m[k] = v`: overwrite in place when the key is
present, append otherwise. -/
def pyDictInsert {α : Type} (m : List (String × α)) (k : String) (v : α) :
    List (String × α) :=
  if (dlookup m k).isSome then m.map (fun p => if p.1 = k then (k, v) else p)
  else m ++ [(k, v)]

/-- Python dict merge `{**a, **b}`. -/
def pyDictMerge {α : Type} (a b : List (String × α)) : List (String × α) :=
  b.foldl (fun m p => pyDictInsert m p.1 p.2) a

/-- The per-variable body of `extract_nearest_values`: the scalar at time 0
and the located indices when the translated field exists, the absence
marker (`None`) otherwise. -/
def extractValue (nc : NCDataset) (lat_idx lon_idx : Nat) (nc_var : String) :
    Option Rat :=
  if hasVar nc nc_var then some (readVar nc nc_var 0 lat_idx lon_idx) else none

/-- `extract_nearest_values` of app.py lines 100-113: locate the nearest
grid indices, then build the `values` dict keyed by the translated name of
each requested variable. -/
def extract_nearest_values (nc : NCDataset) (lat lon : Rat)
    (requested_vars : List String) : List (String × Option Rat) :=
  let lon_idx := nearestIndex nc.longitude lon
  let lat_idx := nearestIndex nc.latitude lat
  requested_vars.foldl
    (fun values req_var =>
      pyDictInsert values (varMapGet req_var)
        (extractValue nc lat_idx lon_idx (varMapGet req_var))) []

theorem dlookup_map_update {α : Type} (m : List (String × α)) (k : String) (v : α)
    (h : (dlookup m k).isSome = true) :
    dlookup (m.map (fun p => if p.1 = k then (k, v) else p)) k = some v := by
  induction m with
  | nil => simp [dlookup] at h
  | cons p ps ih =>
    by_cases hp : p.1 = k
    · simp [dlookup, hp]
    · have hps : (dlookup ps k).isSome = true := by
        simpa [dlookup, hp] using h
      simp [dlookup, hp, ih hps]

theorem dlookup_append_single {α : Type} (m : List (String × α)) (k : String) (v : α)
    (h : (dlookup m k).isSome = false) :
    dlookup (m ++ [(k, v)]) k = some v := by
  induction m with
  | nil => simp [dlookup]
  | cons p ps ih =>
    have hp : ¬ p.1 = k := by
      intro he
      simp [dlookup, he] at h
    have hps : (dlookup ps k).isSome = false := by
      simpa [dlookup, hp] using h
    simp [dlookup, hp, ih hps]

theorem dlookup_insert_self {α : Type} (m : List (String × α)) (k : String)
    (v : α) : dlookup (pyDictInsert m k v) k = some v := by
  unfold pyDictInsert
  by_cases h : (dlookup m k).isSome = true
  · rw [if_pos h]
    exact dlookup_map_update m k v h
  · rw [if_neg h]
    exact dlookup_append_single m k v (by simpa using h)

theorem dlookup_map_update_ne {α : Type} (m : List (String × α)) (k : String)
    (v : α) (k₂ : String) (hne : k₂ ≠ k) :
    dlookup (m.map (fun p => if p.1 = k then (k, v) else p)) k₂ = dlookup m k₂ := by
  induction m with
  | nil => rfl
  | cons p ps ih =>
    by_cases hp : p.1 = k
    · have h1 : ¬ k = k₂ := fun he => hne he.symm
      have h2 : ¬ p.1 = k₂ := by rw [hp]; exact h1
      simp [dlookup, hp, h1, h2, ih]
    · by_cases hq : p.1 = k₂
      · simp [dlookup, hp, hq, hne]
      · simp [dlookup, hp, hq, ih]

theorem dlookup_append_ne {α : Type} (m : List (String × α)) (k : String)
    (v : α) (k₂ : String) (hne : k₂ ≠ k) :
    dlookup (m ++ [(k, v)]) k₂ = dlookup m k₂ := by
  have h1 : ¬ k = k₂ := fun he => hne he.symm
  induction m with
  | nil => simp [dlookup, h1]
  | cons p ps ih =>
    by_cases hq : p.1 = k₂
    · simp [dlookup, hq]
    · simp [dlookup, hq, ih]

theorem dlookup_insert_ne {α : Type} (m : List (String × α)) (k : String)
    (v : α) (k₂ : String) (hne : k₂ ≠ k) :
    dlookup (pyDictInsert m k v) k₂ = dlookup m k₂ := by
  unfold pyDictInsert
  by_cases h : (dlookup m k).isSome = true
  · rw [if_pos h]
    exact dlookup_map_update_ne m k v k₂ hne
  · rw [if_neg h]
    exact dlookup_append_ne m k v k₂ hne

/-- Column names of a dict/DataFrame, in insertion order. -/
def dictKeys {α : Type} (m : List (String × α)) : List String := m.map Prod.fst

theorem isSome_dlookup_iff_mem_keys {α : Type} (m : List (String × α)) (k : String) :
    (dlookup m k).isSome = true ↔ k ∈ dictKeys m := by
  induction m with
  | nil => simp [dlookup, dictKeys]
  | cons p ps ih =>
    by_cases hp : p.1 = k
    · simp [dlookup, dictKeys, hp]
    · have h2 : ¬ k = p.1 := fun he => hp he.symm
      simp [dlookup, dictKeys, hp, h2, ih]

theorem dictKeys_map_update {α : Type} (m : List (String × α)) (k : String) (v : α) :
    dictKeys (m.map (fun p => if p.1 = k then (k, v) else p)) = dictKeys m := by
  induction m with
  | nil => rfl
  | cons p ps ih =>
    show ((if p.1 = k then (k, v) else p).1)
        :: dictKeys (ps.map (fun p => if p.1 = k then (k, v) else p))
      = p.1 :: dictKeys ps
    rw [ih]
    by_cases hp : p.1 = k
    · rw [if_pos hp, hp]
    · rw [if_neg hp]

theorem dictKeys_insert {α : Type} (m : List (String × α)) (k : String) (v : α) :
    dictKeys (pyDictInsert m k v)
      = if (dlookup m k).isSome then dictKeys m else dictKeys m ++ [k] := by
  unfold pyDictInsert
  by_cases h : (dlookup m k).isSome = true
  · rw [if_pos h, if_pos h]
    exact dictKeys_map_update m k v
  · rw [if_neg h, if_neg h]
    simp [dictKeys]

/-- Key-set effect of one dict assignment. -/
def insertKey (ks : List String) (k : String) : List String :=
  if k ∈ ks then ks else ks ++ [k]

theorem dictKeys_foldl {α β : Type} (key : β → String) (val : β → α) :
    ∀ (xs : List β) (acc : List (String × α)),
      dictKeys (xs.foldl (fun m x => pyDictInsert m (key x) (val x)) acc)
        = (xs.map key).foldl insertKey (dictKeys acc)
  | [], acc => rfl
  | x :: xs, acc => by
    rw [List.foldl_cons, List.map_cons, List.foldl_cons,
      dictKeys_foldl key val xs (pyDictInsert acc (key x) (val x)),
      dictKeys_insert]
    congr 1
    unfold insertKey
    by_cases h : key x ∈ dictKeys acc
    · rw [if_pos ((isSome_dlookup_iff_mem_keys acc (key x)).mpr h), if_pos h]
    · rw [if_neg (fun hs => h ((isSome_dlookup_iff_mem_keys acc (key x)).mp hs)),
        if_neg h]

theorem foldl_insert_lookup_correct {α β : Type} (key : β → String) (g : String → α) :
    ∀ (xs : List β) (acc : List (String × α)),
      (∀ k v, dlookup acc k = some v → v = g k) →
      ∀ (k : String) (v : α),
        dlookup (xs.foldl (fun m x => pyDictInsert m (key x) (g (key x))) acc) k
          = some v → v = g k
  | [], _, hacc, k, v => hacc k v
  | x :: xs, acc, hacc, k, v => by
    rw [List.foldl_cons]
    apply foldl_insert_lookup_correct key g xs (pyDictInsert acc (key x) (g (key x)))
    intro k₂ v₂ hl
    by_cases hk : k₂ = key x
    · subst hk
      rw [dlookup_insert_self] at hl
      exact (Option.some_inj.mp hl).symm
    · rw [dlookup_insert_ne acc (key x) _ k₂ hk] at hl
      exact hacc k₂ v₂ hl

theorem foldl_insert_isSome {α β : Type} (key : β → String) (g : String → α) :
    ∀ (xs : List β) (acc : List (String × α)) (k : String),
      ((dlookup acc k).isSome = true ∨ ∃ x, x ∈ xs ∧ key x = k) →
      (dlookup (xs.foldl (fun m x => pyDictInsert m (key x) (g (key x))) acc) k).isSome
        = true
  | [], acc, k, h => by
    rcases h with h | ⟨x, hx, _⟩
    · exact h
    · exact absurd hx (List.not_mem_nil x)
  | x :: xs, acc, k, h => by
    rw [List.foldl_cons]
    apply foldl_insert_isSome key g xs _ k
    rcases h with h | ⟨x₂, hx₂, hkey⟩
    · left
      by_cases hk : k = key x
      · subst hk
        rw [dlookup_insert_self]
        rfl
      · rw [dlookup_insert_ne acc (key x) _ k hk]
        exact h
    · rcases List.mem_cons.mp hx₂ with he | ht
      · left
        subst he
        subst hkey
        rw [dlookup_insert_self]
        rfl
      · exact Or.inr ⟨x₂, ht, hkey⟩

theorem foldl_insert_lookup_mem {α β : Type} (key : β → String) (g : String → α)
    (xs : List β) (x : β) (hx : x ∈ xs) :
    dlookup (xs.foldl (fun m y => pyDictInsert m (key y) (g (key y))) []) (key x)
      = some (g (key x)) := by
  have h1 := foldl_insert_isSome key g xs [] (key x) (Or.inr ⟨x, hx, rfl⟩)
  obtain ⟨v, hv⟩ := Option.isSome_iff_exists.mp h1
  have h2 := foldl_insert_lookup_correct key g xs []
    (by intro k v h; simp [dlookup] at h) (key x) v hv
  rw [hv, h2]

theorem pyDictInsert_mem {α : Type} (m : List (String × α)) (k : String) (v : α)
    (p : String × α) (h : p ∈ pyDictInsert m k v) : p ∈ m ∨ p.1 = k := by
  unfold pyDictInsert at h
  by_cases hc : (dlookup m k).isSome = true
  · rw [if_pos hc] at h
    rcases List.mem_map.mp h with ⟨q, hq, he⟩
    by_cases hqk : q.1 = k
    · right
      rw [← he, if_pos hqk]
    · left
      rw [if_neg hqk] at he
      rw [← he]
      exact hq
  · rw [if_neg hc] at h
    rcases List.mem_append.mp h with h1 | h2
    · exact Or.inl h1
    · right
      rw [List.mem_singleton.mp h2]

theorem foldl_insert_mem {α β : Type} (key : β → String) (g : String → α) :
    ∀ (xs : List β) (acc : List (String × α)) (p : String × α),
      p ∈ xs.foldl (fun m y => pyDictInsert m (key y) (g (key y))) acc →
      p ∈ acc ∨ ∃ x, x ∈ xs ∧ key x = p.1
  | [], _, _, h => Or.inl h
  | x :: xs, acc, p, h => by
    rw [List.foldl_cons] at h
    rcases foldl_insert_mem key g xs _ p h with h1 | ⟨x₂, hx₂, hk⟩
    · rcases pyDictInsert_mem acc (key x) _ p h1 with h2 | h2
      · exact Or.inl h2
      · exact Or.inr ⟨x, List.mem_cons_self x xs, h2.symm⟩
    · exact Or.inr ⟨x₂, List.mem_cons_of_mem x hx₂, hk⟩

/-- The meteorological request variables of app.py line 156. -/
def meteo_vars : List String :=
  ["10m_u_component_of_wind", "10m_v_component_of_wind", "2m_temperature",
   "surface_pressure"]

/-- The vegetation request variables of app.py line 157. -/
def veg_vars : List String :=
  ["high_vegetation_cover", "leaf_area_index_high_vegetation",
   "leaf_area_index_low_vegetation", "low_vegetation_cover"]

/-- The thirteen predictor column names of app.py line 172. -/
def predictors : List String :=
  ["latitude", "longitude", "year", "month", "day", "sp", "t2m", "u10", "v10",
   "lai_hv", "lai_lv", "cvh", "cvl"]

/-- One DataFrame cell: a number, a text value (the date column), or the
absence marker (`None`). -/
inductive Cell where
  | absent
  | num (q : Rat)
  | txt (s : String)
deriving DecidableEq

/-- An extracted optional scalar as a DataFrame cell. -/
def toCell : Option Rat → Cell
  | some v => Cell.num v
  | none => Cell.absent

/-- The single-row DataFrame of app.py lines 167-168:
`{"date": ..., "latitude": ..., "longitude": ..., **all_values}` followed by
the `year`, `month`, `day` column assignments. -/
def assemble_df (dateStr : String) (lat lon : Rat) (y mo dy : Nat)
    (all_values : List (String × Option Rat)) : List (String × Cell) :=
  let base := all_values.foldl (fun acc p => pyDictInsert acc p.1 (toCell p.2))
    [("date", Cell.txt dateStr), ("latitude", Cell.num lat),
     ("longitude", Cell.num lon)]
  pyDictInsert (pyDictInsert (pyDictInsert base "year" (Cell.num (y : Rat)))
    "month" (Cell.num (mo : Rat))) "day" (Cell.num (dy : Rat))

/-- The completeness check of app.py line 173:
`all(col in df.columns for col in predictors)` — a column-name presence
test. -/
def predictors_check (df : List (String × Cell)) : Bool :=
  predictors.all (fun col => (dlookup df col).isSome)

/-- The guard of app.py lines 171-173: prediction runs when the
model/scaler pair loaded and the column check passes. -/
def prediction_attempted (model_loaded : Bool) (df : List (String × Cell)) : Bool :=
  model_loaded && predictors_check df

/-- The displayed result of app.py lines 174-182: a table carrying a CO2
column exactly when prediction ran (`co2` stands for the model output after
inverse scaling). -/
def output_table (model_loaded : Bool) (df : List (String × Cell)) (co2 : Rat) :
    Option (List (String × Cell)) :=
  if prediction_attempted model_loaded df then
    some (pyDictInsert df "CO2" (Cell.num co2))
  else none

theorem extract_lookup (nc : NCDataset) (lat lon : Rat) (reqs : List String)
    (r : String) (hr : r ∈ reqs) :
    dlookup (extract_nearest_values nc lat lon reqs) (varMapGet r)
      = some (extractValue nc (nearestIndex nc.latitude lat)
          (nearestIndex nc.longitude lon) (varMapGet r)) :=
  foldl_insert_lookup_mem varMapGet
    (extractValue nc (nearestIndex nc.latitude lat) (nearestIndex nc.longitude lon))
    reqs r hr

theorem extract_keys (nc : NCDataset) (lat lon : Rat) (reqs : List String) :
    dictKeys (extract_nearest_values nc lat lon reqs)
      = (reqs.map varMapGet).foldl insertKey [] :=
  dictKeys_foldl varMapGet
    (fun r => extractValue nc (nearestIndex nc.latitude lat)
      (nearestIndex nc.longitude lon) (varMapGet r)) reqs []

theorem dictKeys_insert_key {α : Type} (m : List (String × α)) (k : String) (v : α) :
    dictKeys (pyDictInsert m k v) = insertKey (dictKeys m) k := by
  rw [dictKeys_insert]
  unfold insertKey
  by_cases h : k ∈ dictKeys m
  · rw [if_pos ((isSome_dlookup_iff_mem_keys m k).mpr h), if_pos h]
  · rw [if_neg (fun hs => h ((isSome_dlookup_iff_mem_keys m k).mp hs)), if_neg h]

theorem dictKeys_merge {α : Type} (a b : List (String × α)) :
    dictKeys (pyDictMerge a b) = (dictKeys b).foldl insertKey (dictKeys a) :=
  dictKeys_foldl Prod.fst Prod.snd b a

theorem assemble_df_keys (dateStr : String) (lat lon : Rat) (y mo dy : Nat)
    (av : List (String × Option Rat)) :
    dictKeys (assemble_df dateStr lat lon y mo dy av)
      = insertKey (insertKey (insertKey
          ((dictKeys av).foldl insertKey ["date", "latitude", "longitude"])
          "year") "month") "day" := by
  unfold assemble_df
  rw [dictKeys_insert_key, dictKeys_insert_key, dictKeys_insert_key]
  have h := dictKeys_foldl (α := Cell) Prod.fst (fun p => toCell p.2) av
    [("date", Cell.txt dateStr), ("latitude", Cell.num lat),
     ("longitude", Cell.num lon)]
  exact congrArg (fun ks => insertKey (insertKey (insertKey ks "year") "month") "day") h

theorem predictors_check_keys (df : List (String × Cell)) :
    predictors_check df = predictors.all (fun col => decide (col ∈ dictKeys df)) := by
  unfold predictors_check
  have hfun : (fun col => (dlookup df col).isSome)
      = (fun col => decide (col ∈ dictKeys df)) := by
    funext col
    by_cases h : col ∈ dictKeys df
    · rw [(isSome_dlookup_iff_mem_keys df col).mpr h]
      simp [h]
    · cases hb : (dlookup df col).isSome with
      | true => exact absurd ((isSome_dlookup_iff_mem_keys df col).mp hb) h
      | false => simp [h]
  rw [hfun]

/-- A small dataset holding only the internal field `t2m`, on a one-point
grid. -/
def dsT2m : NCDataset :=
  { latitude := [0], longitude := [0], vars := [("t2m", fun _ _ _ => 77)] }

/-- C3: for every dataset and request list, a requested variable whose
translated name is missing from the dataset is recorded as the absence
marker, one whose translated name is present is recorded with its real
scalar value, and every requested variable yields an entry — the extraction
never fails as a whole because of one missing field. -/
theorem extract_missing_field_spec (nc : NCDataset) (lat lon : Rat)
    (reqs : List String) (r : String) (hr : r ∈ reqs) :
    (hasVar nc (varMapGet r) = false →
      dlookup (extract_nearest_values nc lat lon reqs) (varMapGet r) = some none)
    ∧ (hasVar nc (varMapGet r) = true →
      dlookup (extract_nearest_values nc lat lon reqs) (varMapGet r)
        = some (some (readVar nc (varMapGet r) 0 (nearestIndex nc.latitude lat)
            (nearestIndex nc.longitude lon))))
    ∧ (∀ r₂, r₂ ∈ reqs →
      (dlookup (extract_nearest_values nc lat lon reqs) (varMapGet r₂)).isSome
        = true) := by
  refine ⟨?_, ?_, ?_⟩
  · intro hm
    rw [extract_lookup nc lat lon reqs r hr]
    simp [extractValue, hm]
  · intro hm
    rw [extract_lookup nc lat lon reqs r hr]
    simp [extractValue, hm]
  · intro r₂ hr₂
    rw [extract_lookup nc lat lon reqs r₂ hr₂]
    rfl

/-- Witness for `extract_missing_field_spec`: requesting temperature and
surface pressure from a dataset holding only `t2m` yields the absence
marker for the pressure field and the real value for the temperature
field. -/
theorem extract_missing_field_spec_witness :
    dlookup (extract_nearest_values dsT2m 0 0
        ["2m_temperature", "surface_pressure"]) (varMapGet "surface_pressure")
      = some none
    ∧ dlookup (extract_nearest_values dsT2m 0 0
        ["2m_temperature", "surface_pressure"]) (varMapGet "2m_temperature")
      = some (some (readVar dsT2m (varMapGet "2m_temperature") 0
          (nearestIndex dsT2m.latitude 0) (nearestIndex dsT2m.longitude 0))) :=
  ⟨(extract_missing_field_spec dsT2m 0 0 ["2m_temperature", "surface_pressure"]
      "surface_pressure" (by decide)).1 (by decide),
   (extract_missing_field_spec dsT2m 0 0 ["2m_temperature", "surface_pressure"]
      "2m_temperature" (by decide)).2.1 (by decide)⟩

/-- C4 counterexample: requesting `2m_temperature` yields a mapping with no
entry under the requested name — the entry is stored under the translated
internal name `t2m` instead, refuting the claim that the mapping is keyed
by the requested-variable names themselves. -/
theorem extract_not_keyed_by_requested_names :
    dlookup (extract_nearest_values dsT2m 0 0 ["2m_temperature"]) "2m_temperature"
      = none
    ∧ dlookup (extract_nearest_values dsT2m 0 0 ["2m_temperature"]) "t2m"
      = some (some 77) := by
  constructor
  · decide
  · decide

/-- C4 amended: the returned mapping has one entry keyed by the translated
internal name of each requested variable (holding its value or the absence
marker), and every key of the mapping is the translation of some requested
name. -/
theorem extract_keyed_by_translated_names (nc : NCDataset) (lat lon : Rat)
    (reqs : List String) :
    (∀ r, r ∈ reqs →
      (dlookup (extract_nearest_values nc lat lon reqs) (varMapGet r)).isSome
        = true)
    ∧ (∀ p, p ∈ extract_nearest_values nc lat lon reqs →
        ∃ r, r ∈ reqs ∧ varMapGet r = p.1) := by
  constructor
  · intro r hr
    rw [extract_lookup nc lat lon reqs r hr]
    rfl
  · intro p hp
    rcases foldl_insert_mem varMapGet
      (extractValue nc (nearestIndex nc.latitude lat) (nearestIndex nc.longitude lon))
      reqs [] p hp with h1 | h2
    · exact absurd h1 (List.not_mem_nil p)
    · exact h2

/-- Witness for `extract_keyed_by_translated_names` at a concrete dataset
and request list. -/
theorem extract_keyed_by_translated_names_witness :
    (dlookup (extract_nearest_values dsT2m 0 0 ["2m_temperature"])
      (varMapGet "2m_temperature")).isSome = true
    ∧ ∃ r, r ∈ ["2m_temperature"] ∧ varMapGet r = ("t2m", some (77 : Rat)).1 :=
  ⟨(extract_keyed_by_translated_names dsT2m 0 0 ["2m_temperature"]).1
      "2m_temperature" (by decide),
   (extract_keyed_by_translated_names dsT2m 0 0 ["2m_temperature"]).2
      ("t2m", some (77 : Rat)) (by decide)⟩

/-- C10: for every dataset, every requested variable yields an entry under
its translated internal name (possibly the absence marker); consequently
the record assembled from the fixed meteorological and vegetation request
lists always contains all thirteen predictor columns, so the
pre-prediction column check passes on every run whose fetch and extraction
succeed. -/
theorem extract_total_and_check_passes :
    (∀ (nc : NCDataset) (lat lon : Rat) (reqs : List String) (r : String),
      r ∈ reqs →
      (dlookup (extract_nearest_values nc lat lon reqs) (varMapGet r)).isSome
        = true)
    ∧ (∀ (ncm ncv : NCDataset) (dateStr : String) (lat lon : Rat) (y mo dy : Nat),
      predictors_check (assemble_df dateStr lat lon y mo dy
        (pyDictMerge (extract_nearest_values ncm lat lon meteo_vars)
          (extract_nearest_values ncv lat lon veg_vars))) = true) := by
  constructor
  · intro nc lat lon reqs r hr
    rw [extract_lookup nc lat lon reqs r hr]
    rfl
  · intro ncm ncv dateStr lat lon y mo dy
    rw [predictors_check_keys, assemble_df_keys, dictKeys_merge, extract_keys,
      extract_keys]
    decide

/-- Witness for `extract_total_and_check_passes` at a concrete dataset. -/
theorem extract_total_and_check_passes_witness :
    (dlookup (extract_nearest_values dsT2m 0 0 veg_vars)
      (varMapGet "high_vegetation_cover")).isSome = true
    ∧ predictors_check (assemble_df "2020-06-15" 40 (-75) 2020 6 15
        (pyDictMerge (extract_nearest_values dsT2m 40 (-75) meteo_vars)
          (extract_nearest_values dsT2m 40 (-75) veg_vars))) = true :=
  ⟨extract_total_and_check_passes.1 dsT2m 0 0 veg_vars "high_vegetation_cover"
      (by decide),
   extract_total_and_check_passes.2 dsT2m dsT2m "2020-06-15" 40 (-75) 2020 6 15⟩

/-- A dataset on a one-point grid holding all four internal meteorological
fields. -/
def dsMeteoFull : NCDataset :=
  { latitude := [0], longitude := [0],
    vars := [("u10", fun _ _ _ => 1), ("v10", fun _ _ _ => 2),
             ("t2m", fun _ _ _ => 3), ("sp", fun _ _ _ => 4)] }

/-- A vegetation dataset on a one-point grid missing the `cvh` field. -/
def dsVegNoCvh : NCDataset :=
  { latitude := [0], longitude := [0],
    vars := [("lai_hv", fun _ _ _ => 5), ("lai_lv", fun _ _ _ => 6),
             ("cvl", fun _ _ _ => 7)] }

/-- The record assembled from a complete meteorological dataset and a
vegetation dataset missing `cvh`: the `cvh` column exists but carries the
absence marker. -/
def df_absent_cvh : List (String × Cell) :=
  assemble_df "2020-06-15" 40 (-75) 2020 6 15
    (pyDictMerge (extract_nearest_values dsMeteoFull 40 (-75) meteo_vars)
      (extract_nearest_values dsVegNoCvh 40 (-75) veg_vars))

/-- C1 counterexample: in the assembled record `df_absent_cvh` the `cvh`
predictor maps to the absence marker, yet the completeness check passes,
prediction is attempted, and a CO2 column is produced — refuting the claim
that prediction is attempted only when all thirteen values are present and
non-absent. -/
theorem prediction_attempted_despite_absent_value :
    dlookup df_absent_cvh "cvh" = some Cell.absent
    ∧ prediction_attempted true df_absent_cvh = true
    ∧ (output_table true df_absent_cvh 0).isSome = true := by
  refine ⟨?_, ?_, ?_⟩ <;> decide

/-- C1 amended: prediction is attempted if and only if the model/scaler
pair is loaded and all thirteen predictor names are present as columns; the
check inspects column names only — two records with the same columns pass
or fail together regardless of values, so an absence-marker value does not
skip prediction — and when some predictor column is missing entirely no
CO2 table is produced. -/
theorem prediction_gate_spec :
    (∀ (ml : Bool) (df : List (String × Cell)),
      prediction_attempted ml df = true ↔
        (ml = true ∧ ∀ c, c ∈ predictors → (dlookup df c).isSome = true))
    ∧ (∀ (df₁ df₂ : List (String × Cell)), dictKeys df₁ = dictKeys df₂ →
        predictors_check df₁ = predictors_check df₂)
    ∧ (∀ (ml : Bool) (df : List (String × Cell)) (co2 : Rat) (c : String),
        c ∈ predictors → (dlookup df c).isSome = false →
        output_table ml df co2 = none) := by
  refine ⟨?_, ?_, ?_⟩
  · intro ml df
    unfold prediction_attempted predictors_check
    rw [Bool.and_eq_true, List.all_eq_true]
  · intro df₁ df₂ hk
    rw [predictors_check_keys, predictors_check_keys, hk]
  · intro ml df co2 c hc hns
    have hcheck : ¬ (predictors_check df = true) := by
      unfold predictors_check
      rw [List.all_eq_true]
      intro hall
      have hx := hall c hc
      rw [hns] at hx
      exact Bool.false_ne_true hx
    have hna : ¬ (prediction_attempted ml df = true) := by
      intro h
      unfold prediction_attempted at h
      rw [Bool.and_eq_true] at h
      exact hcheck h.2
    unfold output_table
    rw [if_neg hna]

/-- Witness for `prediction_gate_spec`: the empty record lacks the `cvh`
column, so no CO2 table is produced; the gate equivalence and the
keys-only property instantiated at the empty record. -/
theorem prediction_gate_spec_witness :
    (prediction_attempted true [] = true ↔
      (true = true ∧ ∀ c, c ∈ predictors →
        (dlookup ([] : List (String × Cell)) c).isSome = true))
    ∧ predictors_check [] = predictors_check []
    ∧ output_table true [] 0 = none :=
  ⟨prediction_gate_spec.1 true [], prediction_gate_spec.2.1 [] [] rfl,
   prediction_gate_spec.2.2 true [] 0 "cvh" (by decide) rfl⟩

/-- Zero-padded two-digit formatting, mirroring Python `f"{n:02d}"`. -/
def pad2 (n : Nat) : String := if n < 10 then "0" ++ toString n else toString n

/-- The deterministic file name
`f"{prefix}_{year}-{month:02d}-{day:02d}.nc"` of app.py line 80. -/
def era5FileName (label : String) (year month day : Nat) : String :=
  label ++ "_" ++ toString year ++ "-" ++ pad2 month ++ "-" ++ pad2 day ++ ".nc"

/-- Outcome of one fetch call: the returned local path, the file set
afterwards, and how many remote requests were issued. -/
structure FetchResult where
  path : String
  files : List String
  requests : Nat

/-- `download_era5` of app.py lines 79-95, over an explicit set of existing
file paths: build the deterministic path; when the file exists skip the
remote request entirely, otherwise issue one request that writes the file;
return the local path either way. -/
def download_era5 (files : List String) (year month day : Nat)
    (save_path : String) (_vars_req : List String) (label : String) :
    FetchResult :=
  let nc_path := save_path ++ "/" ++ era5FileName label year month day
  if nc_path ∈ files then { path := nc_path, files := files, requests := 0 }
  else { path := nc_path, files := nc_path :: files, requests := 1 }

/-- C5: `download_era5` is idempotent — after a first call, a second call
with identical date, destination, variables and label returns the same
path, issues no remote request, and leaves the file set unchanged; the two
calls together perform at most one remote request. -/
theorem download_era5_idempotent (files : List String) (year month day : Nat)
    (save_path : String) (vars_req : List String) (label : String) :
    (download_era5 (download_era5 files year month day save_path vars_req
        label).files year month day save_path vars_req label).path
      = (download_era5 files year month day save_path vars_req label).path
    ∧ (download_era5 (download_era5 files year month day save_path vars_req
        label).files year month day save_path vars_req label).requests = 0
    ∧ (download_era5 (download_era5 files year month day save_path vars_req
        label).files year month day save_path vars_req label).files
      = (download_era5 files year month day save_path vars_req label).files
    ∧ (download_era5 files year month day save_path vars_req label).requests
      ≤ 1 := by
  by_cases h : (save_path ++ "/" ++ era5FileName label year month day) ∈ files
  · simp [download_era5, h]
  · simp [download_era5, h]

/-- File creation: `retrieve(...).download(name)` writes the named file. -/
def fsWrite (files : List String) (name : String) : List String :=
  if name ∈ files then files else name :: files

/-- One unconditional retrieval of oco2.py (lines 47-48 and 70-71): a
remote request is always issued and the named file written — there is no
existence check. -/
def oco2_fetch (files : List String) (name : String) : FetchResult :=
  { path := name, files := fsWrite files name, requests := 1 }

/-- The single-levels file name `f"era5_single_{year}{month}{day}.nc"` of
oco2.py line 47, with zero-padded month and day components. -/
def oco2SingleName (year month day : Nat) : String :=
  "era5_single_" ++ toString year ++ pad2 month ++ pad2 day ++ ".nc"

/-- The vegetation file name `f"era5_veg_{year}{month}{day}.nc"` of oco2.py
line 70. -/
def oco2VegName (year month day : Nat) : String :=
  "era5_veg_" ++ toString year ++ pad2 month ++ pad2 day ++ ".nc"

/-- C6 counterexample: in the download utility a same-named file already on
disk does not suppress the remote request — fetching
`era5_single_20200615.nc` while it already exists still issues one request
(not zero), refuting the claim that in both entry points the presence of
the file means no remote request is issued. -/
theorem oco2_refetches_existing_file :
    oco2SingleName 2020 6 15 ∈ [oco2SingleName 2020 6 15]
    ∧ (oco2_fetch [oco2SingleName 2020 6 15] (oco2SingleName 2020 6 15)).requests
        = 1
    ∧ (oco2_fetch [oco2SingleName 2020 6 15] (oco2SingleName 2020 6 15)).requests
        ≠ 0 := by
  refine ⟨List.mem_singleton.mpr rfl, rfl, ?_⟩
  decide

/-- C6 amended: downloaded files are named by fixed label-and-date patterns
in both entry points, but only the prediction app treats the presence of a
same-named file as already fetched: `download_era5` issues no request when
its file exists, while each retrieval of the download utility issues a
request unconditionally. -/
theorem cache_check_only_in_app (files : List String) (year month day : Nat)
    (save_path : String) (vars_req : List String) (label : String)
    (name : String) :
    ((save_path ++ "/" ++ era5FileName label year month day) ∈ files →
      (download_era5 files year month day save_path vars_req label).requests = 0)
    ∧ (oco2_fetch files name).requests = 1 := by
  constructor
  · intro h
    simp [download_era5, h]
  · rfl

/-- Witness for `cache_check_only_in_app`: with `meteo_2020-06-15.nc`
already in the destination directory, the app fetcher issues no request,
while the utility fetcher always issues one. -/
theorem cache_check_only_in_app_witness :
    (download_era5 ["era5_data/meteo_2020-06-15.nc"] 2020 6 15 "era5_data"
      meteo_vars "meteo").requests = 0
    ∧ (oco2_fetch [] "era5_single_20200615.nc").requests = 1 :=
  ⟨(cache_check_only_in_app ["era5_data/meteo_2020-06-15.nc"] 2020 6 15
      "era5_data" meteo_vars "meteo" "era5_single_20200615.nc").1 (by decide),
   (cache_check_only_in_app [] 2020 6 15 "era5_data" meteo_vars "meteo"
      "era5_single_20200615.nc").2⟩

/-- The credential error message of app.py line 38. -/
def credMsg : String := "CDS API credentials not set in Streamlit secrets!"

/-- State of the `~/.cdsapirc` credential file. `incomplete` models the
empty file left behind when `open(cds_path, "w")` has already created it
but the argument of `f.write` raised `KeyError` while reading a missing
secret, so nothing was written. -/
inductive CredFile where
  | absent
  | incomplete
  | complete

/-- Observable state after the startup section of app.py (lines 29-60 and
the date/map widgets): error messages shown, the credential file state,
whether the model/scaler pair loaded, and whether the date/map interface
was reached in this script run. -/
structure StartupState where
  errors : List String
  cred_file : CredFile
  model_loaded : Bool
  ui_reached : Bool

/-- The credential bootstrap of app.py lines 29-38: when no credential
file exists, open it for writing (which creates it) and write the string
built from the two secrets; a missing secret raises `KeyError` while that
string is built — after the file was already created empty — and the
handler reports a visible error. An existing file is left untouched. -/
def bootstrap_cds (cds_file : CredFile) (uid key : Option String) :
    CredFile × List String :=
  match cds_file with
  | CredFile.absent =>
    match uid, key with
    | some _, some _ => (CredFile.complete, [])
    | _, _ => (CredFile.incomplete, [credMsg])
  | f => (f, [])

/-- The `cdsapi.Client()` constructor invoked unguarded at app.py line 40,
modelled from the cdsapi library's documented behavior: it raises unless a
complete configuration file provides the service url and key. -/
def cdsapi_client_init (cds_file : CredFile) : Except String Unit :=
  match cds_file with
  | CredFile.complete => Except.ok ()
  | _ => Except.error "Missing/incomplete configuration file"

/-- Model loading of app.py lines 45-60: `none` models a missing artifact
file, `some (hm, hs)` a bundle recording whether the model and the scaler
are present. -/
def load_model (model_file : Option (Bool × Bool)) : Bool × List String :=
  match model_file with
  | none => (false, ["Model file not found. Please check path!"])
  | some (hm, hs) =>
    if hm && hs then (true, [])
    else (false, ["Model or scaler missing in bundle"])

/-- The startup sequence of app.py: the credential bootstrap (lines 29-38),
then the unguarded client construction (line 40) — an exception there is
caught by nothing in the script, so the Streamlit run aborts with that one
error before model loading or any widget executes — then model loading
(lines 45-60) and the date and map selection interface. -/
def app_startup (cds_file : CredFile) (uid key : Option String)
    (model_file : Option (Bool × Bool)) : StartupState :=
  let c := bootstrap_cds cds_file uid key
  match cdsapi_client_init c.1 with
  | Except.error e =>
    { errors := c.2 ++ [e], cred_file := c.1, model_loaded := false,
      ui_reached := false }
  | Except.ok _ =>
    let m := load_model model_file
    { errors := c.2 ++ m.2, cred_file := c.1, model_loaded := m.1,
      ui_reached := true }

/-- C7: evaluation at the failing input — both secrets absent, no
credential file, a healthy model bundle on disk. The bootstrap reports the
credential error, but the unguarded client construction then raises on the
empty credential file left behind and aborts the script run: the date and
map interface is never reached and the model is never loaded, while the
same startup with the secrets present does reach the interface. The
missing-secrets error is therefore fatal to the whole session, not a
degradation confined to remote fetching as the claim states. -/
theorem missing_secrets_fatal :
    (app_startup CredFile.absent none none (some (true, true))).errors
      = [credMsg, "Missing/incomplete configuration file"]
    ∧ (app_startup CredFile.absent none none (some (true, true))).ui_reached
        = false
    ∧ (app_startup CredFile.absent none none (some (true, true))).model_loaded
        = false
    ∧ (app_startup CredFile.absent (some "u") (some "k")
        (some (true, true))).ui_reached = true := by
  exact ⟨rfl, rfl, rfl, rfl⟩

/-- Outcomes of the two remote fetches feeding one pipeline run (an
`Except.error` models an exception raised during that fetch). -/
structure PipelineOracle where
  meteo_fetch : Except String NCDataset
  veg_fetch : Except String NCDataset

/-- The error banner of app.py line 184. -/
def pipelineErrMsg (e : String) : String := "Could not fetch data or predict: " ++ e

/-- The body of the try block of app.py lines 154-182: fetch the two
datasets, extract values, merge, assemble the record, and produce the
displayed-table option (`co2` stands for the model output after inverse
scaling). -/
def pipeline_body (ml : Bool) (o : PipelineOracle) (dateStr : String)
    (lat lon : Rat) (y mo dy : Nat) (co2 : Rat) :
    Except String (Option (List (String × Cell))) :=
  match o.meteo_fetch with
  | Except.error e => Except.error e
  | Except.ok ncm =>
    match o.veg_fetch with
    | Except.error e => Except.error e
    | Except.ok ncv =>
      let values_meteo := extract_nearest_values ncm lat lon meteo_vars
      let values_veg := extract_nearest_values ncv lat lon veg_vars
      let df := assemble_df dateStr lat lon y mo dy
        (pyDictMerge values_meteo values_veg)
      Except.ok (output_table ml df co2)

/-- The try/except of app.py lines 154-184: a normal run shows its table
and no error; an exception anywhere in the body is caught at the top and
rendered as a single error message with no table. -/
def run_attempt (ml : Bool) (o : PipelineOracle) (dateStr : String)
    (lat lon : Rat) (y mo dy : Nat) (co2 : Rat) :
    Option (List (String × Cell)) × List String :=
  match pipeline_body ml o dateStr lat lon y mo dy co2 with
  | Except.ok t => (t, [])
  | Except.error e => (none, [pipelineErrMsg e])

/-- C8: when any fetch of the pipeline run raises (for example a network
error during the vegetation fetch), the attempt yields no prediction table
and exactly one user-visible error message; the run function stays total,
so the interface accepts a new attempt. -/
theorem pipeline_error_single_message (ml : Bool) (o : PipelineOracle)
    (dateStr : String) (lat lon : Rat) (y mo dy : Nat) (co2 : Rat) (e : String)
    (h : o.meteo_fetch = Except.error e ∨ o.veg_fetch = Except.error e) :
    (run_attempt ml o dateStr lat lon y mo dy co2).1 = none
    ∧ (run_attempt ml o dateStr lat lon y mo dy co2).2.length = 1 := by
  unfold run_attempt pipeline_body
  rcases h with h | h
  · rw [h]
    exact ⟨rfl, rfl⟩
  · cases hm : o.meteo_fetch with
    | error e2 => exact ⟨rfl, rfl⟩
    | ok ncm => rw [h]; exact ⟨rfl, rfl⟩

/-- Witness for `pipeline_error_single_message`: a run whose vegetation
fetch raises a network error produces no table and one message. -/
theorem pipeline_error_single_message_witness :
    (run_attempt true ⟨Except.ok dsT2m, Except.error "network error"⟩
      "2020-06-15" 40 (-75) 2020 6 15 0).1 = none
    ∧ (run_attempt true ⟨Except.ok dsT2m, Except.error "network error"⟩
      "2020-06-15" 40 (-75) 2020 6 15 0).2.length = 1 :=
  pipeline_error_single_message true ⟨Except.ok dsT2m, Except.error "network error"⟩
    "2020-06-15" 40 (-75) 2020 6 15 0 "network error" (Or.inr rfl)

/-- One row of `download_log.csv` (oco2.py lines 81-86), with columns
`date`, `variables` (here `var_list`, since `variables` is reserved),
`netcdf_files`, `zip_file`. -/
structure LogRow where
  date : String
  var_list : String
  netcdf_files : String
  zip_file : String

/-- The single-level request variables of oco2.py lines 29-35. -/
def single_level_vars : List String :=
  ["10m_u_component_of_wind", "10m_v_component_of_wind", "2m_temperature",
   "surface_pressure", "total_precipitation"]

/-- The vegetation request variables of oco2.py lines 51-58. -/
def vegetation_vars : List String :=
  ["high_vegetation_cover", "low_vegetation_cover",
   "leaf_area_index_high_vegetation", "leaf_area_index_low_vegetation",
   "type_of_high_vegetation", "type_of_low_vegetation"]

/-- File deletion `os.remove(name)`. -/
def fsRemove (files : List String) (name : String) : List String :=
  files.filter (fun f => decide (f ≠ name))

/-- Observable outcome of one run of the download utility. -/
structure DownloadRun where
  zip_entries : List String
  offered_zip : String
  log_rows : List LogRow
  files : List String
  requests : Nat

/-- The successful path of oco2.py lines 17-120: fetch the two NetCDF
files (two remote requests), bundle them into the ZIP, append one row to
the CSV log (reading the prior rows when the log exists), offer the ZIP
and the log for download, then delete the two NetCDF files and the ZIP. -/
def run_oco2_download (files0 : List String) (prior_log : Option (List LogRow))
    (year month day : Nat) : DownloadRun :=
  let y := toString year
  let mo := pad2 month
  let dy := pad2 day
  let date_str := y ++ "-" ++ mo ++ "-" ++ dy
  let nc_single := "era5_single_" ++ y ++ mo ++ dy ++ ".nc"
  let nc_veg := "era5_veg_" ++ y ++ mo ++ dy ++ ".nc"
  let f1 := fsWrite files0 nc_single
  let f2 := fsWrite f1 nc_veg
  let zip_filename := "era5_combined_" ++ y ++ mo ++ dy ++ ".zip"
  let f3 := fsWrite f2 zip_filename
  let new_entry : LogRow :=
    { date := date_str,
      var_list := String.intercalate ", " (single_level_vars ++ vegetation_vars),
      netcdf_files := nc_single ++ ", " ++ nc_veg,
      zip_file := zip_filename }
  let rows :=
    match prior_log with
    | some old => old ++ [new_entry]
    | none => [new_entry]
  let f4 := fsWrite f3 "download_log.csv"
  let f5 := fsRemove (fsRemove (fsRemove f4 nc_single) nc_veg) zip_filename
  { zip_entries := [nc_single, nc_veg],
    offered_zip := zip_filename,
    log_rows := rows,
    files := f5,
    requests := 2 }

/-- C9: every successful run of the download utility produces exactly one
archive holding exactly the two data files and offers it for download,
appends exactly one new row (with the correct date string and combined
variable list) to the log while preserving all prior rows, and afterwards
neither the two intermediate data files nor the archive exist on disk. -/
theorem oco2_download_spec (files0 : List String)
    (prior_log : Option (List LogRow)) (year month day : Nat) :
    (run_oco2_download files0 prior_log year month day).zip_entries
      = ["era5_single_" ++ toString year ++ pad2 month ++ pad2 day ++ ".nc",
         "era5_veg_" ++ toString year ++ pad2 month ++ pad2 day ++ ".nc"]
    ∧ (run_oco2_download files0 prior_log year month day).zip_entries.length = 2
    ∧ (run_oco2_download files0 prior_log year month day).offered_zip
      = "era5_combined_" ++ toString year ++ pad2 month ++ pad2 day ++ ".zip"
    ∧ (run_oco2_download files0 prior_log year month day).log_rows
      = prior_log.getD []
        ++ [{ date := toString year ++ "-" ++ pad2 month ++ "-" ++ pad2 day,
              var_list := String.intercalate ", "
                (single_level_vars ++ vegetation_vars),
              netcdf_files := "era5_single_" ++ toString year ++ pad2 month
                ++ pad2 day ++ ".nc" ++ ", " ++ ("era5_veg_" ++ toString year
                ++ pad2 month ++ pad2 day ++ ".nc"),
              zip_file := "era5_combined_" ++ toString year ++ pad2 month
                ++ pad2 day ++ ".zip" }]
    ∧ ¬ ("era5_single_" ++ toString year ++ pad2 month ++ pad2 day ++ ".nc")
        ∈ (run_oco2_download files0 prior_log year month day).files
    ∧ ¬ ("era5_veg_" ++ toString year ++ pad2 month ++ pad2 day ++ ".nc")
        ∈ (run_oco2_download files0 prior_log year month day).files
    ∧ ¬ ("era5_combined_" ++ toString year ++ pad2 month ++ pad2 day ++ ".zip")
        ∈ (run_oco2_download files0 prior_log year month day).files := by
  refine ⟨rfl, rfl, rfl, ?_, ?_, ?_, ?_⟩
  · cases prior_log <;> rfl
  · intro h
    simp [run_oco2_download, fsRemove, List.mem_filter] at h
  · intro h
    simp [run_oco2_download, fsRemove, List.mem_filter] at h
  · intro h
    simp [run_oco2_download, fsRemove, List.mem_filter] at h
